import Mathlib

/-!
Shallow embedding of the request middleware generated by
src/generators/middleware-builder.ts of the auth-bp-next repository.

JavaScript strings are modelled as lists of characters; the JavaScript
string operations used by the source (split, includes, startsWith, the two
regex tests) are modelled by executable functions on character lists.  The
ambient base64/JSON decoding used by the role extractor is a platform
utility, not repository code, so the functions calling it take it as an
explicit parameter returning none when the platform call throws.
-/

/-- JavaScript strings, modelled as lists of characters. -/
abbrev Str := List Char

/-- Character list of a Lean string literal. -/
def s2l (s : String) : Str := s.data

/-- JavaScript String.prototype.split with a one-character separator:
always returns at least one piece, keeping empty pieces. -/
def splitOnChar (sep : Char) : Str → List Str
  | [] => [[]]
  | c :: cs =>
    match splitOnChar sep cs with
    | r :: rs => if c = sep then [] :: r :: rs else (c :: r) :: rs
    | [] => if c = sep then [[], []] else [[c]]

/-- JavaScript String.prototype.includes: the needle occurs as a
contiguous substring of the haystack. -/
def containsSub (needle : Str) : Str → Bool
  | [] => needle.isEmpty
  | c :: cs => needle.isPrefixOf (c :: cs) || containsSub needle cs

/-- ASCII digits, the character class of the digit escape in the source's
all-digits regex. -/
def isDigitChar (c : Char) : Bool := '0' ≤ c && c ≤ '9'

/-- Lowercase letters, digits or hyphen: the bracket class of the source's
tenant-slug regex. -/
def isSlugChar (c : Char) : Bool := ('a' ≤ c && c ≤ 'z') || isDigitChar c || c == '-'

/-- The anchored regex test for one or more digits covering the whole
string. -/
def testAllDigits (s : Str) : Bool := !s.isEmpty && s.all isDigitChar

/-- The anchored regex test for one or more slug characters covering the
whole string. -/
def testSlug (s : Str) : Bool := !s.isEmpty && s.all isSlugChar

/-- extractSubdomain from the generated middleware: a host containing the
substring localhost yields the part before the first colon unless that part
is exactly localhost; any other host needs at least three dot-separated
parts and a first part that is not www, not all digits, and passes the slug
test. -/
def extractSubdomain (host : Str) : Option Str :=
  if containsSub (s2l "localhost") host then
    let subdomain := (splitOnChar ':' host).headD []
    if subdomain ≠ s2l "localhost" then some subdomain else none
  else
    let parts := splitOnChar '.' host
    if parts.length < 3 then
      none
    else
      let potentialTenant := parts.headD []
      if potentialTenant == s2l "www" || testAllDigits potentialTenant then
        none
      else if !testSlug potentialTenant then
        none
      else
        some potentialTenant

/-- JSON values as produced by the ambient JSON.parse.  Numbers are
modelled as integers: the middleware only ever uses their truthiness. -/
inductive JsonValue where
  | null
  | bool (b : Bool)
  | num (n : Int)
  | str (s : Str)
  | arr (elems : List JsonValue)
  | obj (fields : List (Str × JsonValue))

/-- JavaScript truthiness of a JSON value. -/
def jsTruthy : JsonValue → Bool
  | .null => false
  | .bool b => b
  | .num n => n != 0
  | .str s => !s.isEmpty
  | .arr _ => true
  | .obj _ => true

/-- JavaScript property read on a parsed JSON value: an object yields the
field when present; any other non-null value yields undefined, here none.
Reading a property of null throws, which the caller handles. -/
def getProp : JsonValue → Str → Option JsonValue
  | .obj fields, key => fields.lookup key
  | _, _ => none

/-- The expression reading the roles field with an empty-array default
inside the try block of extractUserRolesFromToken: property access on JSON
null throws, and the surrounding catch turns that into null (none here);
otherwise a truthy roles field is returned as is and a missing or falsy one
defaults to the empty array. -/
def rolesOrEmpty (payload : JsonValue) : Option JsonValue :=
  match payload with
  | .null => none
  | p =>
    match getProp p (s2l "roles") with
    | some v => if jsTruthy v then some v else some (.arr [])
    | none => some (.arr [])

/-- extractUserRolesFromToken from the generated middleware.  The ambient
decoding of the middle token segment (base64 decode then JSON.parse) is the
decodePayload parameter, none meaning the platform call threw. -/
def extractUserRolesFromToken (decodePayload : Str → Option JsonValue)
    (cookies : List (Str × Str)) : Option JsonValue :=
  match cookies.lookup (s2l "next-auth.session-token") with
  | none => none
  | some token =>
    if token.isEmpty then
      none
    else
      match splitOnChar '.' token with
      | [_, payloadSeg, _] =>
        match decodePayload payloadSeg with
        | none => none
        | some payload => rolesOrEmpty payload
      | _ => none

/-- Minimal JSON string quoting: escapes quote and backslash. -/
def jsonQuote (s : Str) : Str :=
  '"' :: s.foldr (fun c acc => if c = '"' || c = '\\' then '\\' :: c :: acc else c :: acc) ['"']

mutual

/-- JSON.stringify, used to serialise the roles value into a header. -/
def jsonStringify : JsonValue → Str
  | .null => s2l "null"
  | .bool true => s2l "true"
  | .bool false => s2l "false"
  | .num n => s2l (toString n)
  | .str s => jsonQuote s
  | .arr elems => '[' :: stringifyElems elems ++ [']']
  | .obj fields => '\x7b' :: stringifyFields fields ++ ['\x7d']

/-- Comma-joined serialisation of array elements. -/
def stringifyElems : List JsonValue → Str
  | [] => []
  | [v] => jsonStringify v
  | v :: rest => jsonStringify v ++ ',' :: stringifyElems rest

/-- Comma-joined serialisation of object fields. -/
def stringifyFields : List (Str × JsonValue) → Str
  | [] => []
  | [(k, v)] => jsonQuote k ++ ':' :: jsonStringify v
  | (k, v) :: rest => jsonQuote k ++ ':' :: jsonStringify v ++ ',' :: stringifyFields rest

end

/-- The PUBLIC_ROUTES constant of the generated middleware. -/
def PUBLIC_ROUTES : List Str :=
  [s2l "/login", s2l "/register", s2l "/forgot-password", s2l "/reset-password", s2l "/api/auth"]

/-- The PROTECTED_ROUTES constant of the generated middleware: declared in
the generated file but never read by its decision logic. -/
def PROTECTED_ROUTES (rbac multitenant : Bool) : List Str :=
  [s2l "/dashboard", s2l "/profile"]
    ++ (if rbac then [s2l "/admin"] else [])
    ++ (if multitenant then [s2l "/mp"] else [])

/-- isPublicRoute from the generated middleware, over the public list of
the configuration. -/
def isPublicRoute (pathname : Str) (publicRoutes : List Str) : Bool :=
  publicRoutes.any (fun route => route.isPrefixOf pathname)

/-- The static routing configuration of the spec.  In the generated file the
two route lists are the PUBLIC_ROUTES and PROTECTED_ROUTES constants and the
two flags select which code is textually included; here they are ordinary
runtime values. -/
structure RoutingConfig where
  rbacEnabled : Bool
  multitenantEnabled : Bool
  publicRoutePrefixes : List Str
  protectedRoutePrefixes : List Str

/-- Per-request immutable snapshot: path, host header and the cookies. -/
structure RequestDescriptor where
  path : Str
  hostHeader : Str
  cookies : List (Str × Str)

/-- The middleware outcome. -/
inductive MiddlewareDecision where
  | passThrough
  | rewrite (newPath : Str)
  | redirect (location : Str)
  | passThroughWithHeaders (headers : List (Str × Str))

/-- JavaScript truthiness of a string-or-null value. -/
def jsTruthyStr : Option Str → Bool
  | none => false
  | some s => !s.isEmpty

/-- The generated middleware function: public routes pass through; with
multitenant enabled a truthy extracted tenant gives a terminal rewrite to
the tenant path; with rbac enabled an absent role set redirects to login
and a present one passes through with a serialized-roles header (plus a
tenant header when multitenant is enabled and the tenant is truthy);
otherwise the request passes through. -/
def middleware (decodePayload : Str → Option JsonValue) (cfg : RoutingConfig)
    (req : RequestDescriptor) : MiddlewareDecision :=
  if isPublicRoute req.path cfg.publicRoutePrefixes then
    .passThrough
  else
    let tenant : Option Str :=
      if cfg.multitenantEnabled then extractSubdomain req.hostHeader else none
    if jsTruthyStr tenant then
      .rewrite (s2l "/mp/" ++ tenant.getD [] ++ req.path)
    else if cfg.rbacEnabled then
      match extractUserRolesFromToken decodePayload req.cookies with
      | none => .redirect (s2l "/login")
      | some userRoles =>
        let requestHeaders : List (Str × Str) :=
          [(s2l "x-user-roles", jsonStringify userRoles)]
        let requestHeaders :=
          if cfg.multitenantEnabled && jsTruthyStr tenant then
            requestHeaders ++ [(s2l "x-tenant-id", tenant.getD [])]
          else requestHeaders
        .passThroughWithHeaders requestHeaders
    else
      .passThrough

/-- C1: evaluation at the failing input.  The generated extractSubdomain
maps acme.localhost:3000 to acme.localhost, everything before the port,
where the spec and the code's own doc comment expect acme; localhost:3000
is mapped to absent as stated. -/
theorem c1_localhost_port_eval :
    extractSubdomain (s2l "acme.localhost:3000") = some (s2l "acme.localhost") ∧
    extractSubdomain (s2l "localhost:3000") = none :=
  ⟨rfl, rfl⟩

/-- C8: a www first label, an all-digit first label and a two-label host
all yield no tenant. -/
theorem c8_excluded_hosts :
    extractSubdomain (s2l "www.example.com") = none ∧
    extractSubdomain (s2l "123.example.com") = none ∧
    extractSubdomain (s2l "example.com") = none :=
  ⟨rfl, rfl, rfl⟩

/-- C2 counterexample: the host acme.localhost.com has exactly three
dot-separated labels and a valid first label acme, yet the localhost fast
path fires on the substring and returns the whole host, not the label. -/
theorem c2_counterexample :
    splitOnChar '.' (s2l "acme.localhost.com")
        = [s2l "acme", s2l "localhost", s2l "com"] ∧
    testSlug (s2l "acme") = true ∧
    s2l "acme" ≠ s2l "www" ∧
    testAllDigits (s2l "acme") = false ∧
    extractSubdomain (s2l "acme.localhost.com") ≠ some (s2l "acme") :=
  ⟨rfl, rfl, by decide, rfl, by decide⟩

/-- C2 (amended): for every host with exactly three dot-separated labels
that does not contain the substring localhost, whose first label consists
of one or more lowercase letters, digits or hyphens, is not www and is not
all digits, extractSubdomain returns that first label. -/
theorem c2_three_label_tenant (host l d t : Str)
    (hloc : containsSub (s2l "localhost") host = false)
    (hsplit : splitOnChar '.' host = [l, d, t])
    (hslug : testSlug l = true)
    (hwww : l ≠ s2l "www")
    (hdig : testAllDigits l = false) :
    extractSubdomain host = some l := by
  have h1 : (l == s2l "www" || testAllDigits l) = false := by
    simp [beq_iff_eq, hwww, hdig]
  have h2 : (!testSlug l) = false := by simp [hslug]
  unfold extractSubdomain
  rw [hloc, hsplit]
  simp only [List.length_cons, List.length_nil, List.headD_cons, h1, h2,
    Bool.false_eq_true, if_false]
  norm_num

/-- C2 witness: the amended statement applied to acme.example.com. -/
theorem c2_three_label_tenant_witness :
    extractSubdomain (s2l "acme.example.com") = some (s2l "acme") :=
  c2_three_label_tenant (s2l "acme.example.com") (s2l "acme") (s2l "example") (s2l "com")
    rfl rfl rfl (by decide) rfl

/-- C3: evaluation at the failing input.  ACME.localhost:3000 contains the
substring localhost, its part before the colon differs from localhost and
fails the slug validation, yet extractSubdomain returns it instead of the
absent result the validation step prescribes. -/
theorem c3_localhost_skips_validation_eval :
    containsSub (s2l "localhost") (s2l "ACME.localhost:3000") = true ∧
    splitOnChar ':' (s2l "ACME.localhost:3000") = [s2l "ACME.localhost", s2l "3000"] ∧
    s2l "ACME.localhost" ≠ s2l "localhost" ∧
    testSlug (s2l "ACME.localhost") = false ∧
    extractSubdomain (s2l "ACME.localhost:3000") = some (s2l "ACME.localhost") :=
  ⟨rfl, rfl, by decide, rfl, rfl⟩

/-- Shared helper: when the session cookie holds a token of exactly three
dot-separated segments, the extractor is the decode of the middle segment
followed by the roles read. -/
theorem extract_of_three_segments (decodePayload : Str → Option JsonValue)
    (cookies : List (Str × Str)) (token hseg pseg sseg : Str)
    (hcookie : cookies.lookup (s2l "next-auth.session-token") = some token)
    (hsplit : splitOnChar '.' token = [hseg, pseg, sseg]) :
    extractUserRolesFromToken decodePayload cookies
      = match decodePayload pseg with
        | none => none
        | some payload => rolesOrEmpty payload := by
  have htok : token.isEmpty = false := by
    cases token with
    | nil => simp [splitOnChar] at hsplit
    | cons c cs => rfl
  unfold extractUserRolesFromToken
  rw [hcookie]
  simp only [htok, Bool.false_eq_true, if_false, hsplit]

/-- C4 counterexample: with a parsed payload whose roles field is the
string admin (present and truthy but not a sequence of strings) the
extractor returns that string rather than the empty role set, and with a
payload that parses to JSON null it returns absent rather than the empty
role set. -/
theorem c4_counterexample :
    extractUserRolesFromToken
        (fun s => if s = s2l "b" then
          some (JsonValue.obj [(s2l "roles", JsonValue.str (s2l "admin"))]) else none)
        [(s2l "next-auth.session-token", s2l "a.b.c")]
      = some (JsonValue.str (s2l "admin")) ∧
    some (JsonValue.str (s2l "admin")) ≠ some (JsonValue.arr []) ∧
    extractUserRolesFromToken
        (fun s => if s = s2l "b" then some JsonValue.null else none)
        [(s2l "next-auth.session-token", s2l "a.b.c")]
      = none :=
  ⟨rfl, by simp, rfl⟩

/-- C4 (amended): for every cookie set holding a session token of exactly
three dot-separated segments whose middle segment decodes and parses
successfully, the extractor returns the roles field whenever it is present
and truthy, whatever its type; it returns the empty role set when the
field is missing or falsy on a payload other than JSON null; and it
returns absent when the payload is JSON null, where the property read
throws and the catch yields null. -/
theorem c4_roles_of_parsed_token (decodePayload : Str → Option JsonValue)
    (cookies : List (Str × Str)) (token hseg pseg sseg : Str) (payload : JsonValue)
    (hcookie : cookies.lookup (s2l "next-auth.session-token") = some token)
    (hsplit : splitOnChar '.' token = [hseg, pseg, sseg])
    (hdecode : decodePayload pseg = some payload) :
    extractUserRolesFromToken decodePayload cookies = rolesOrEmpty payload ∧
    (payload = JsonValue.null → rolesOrEmpty payload = none) ∧
    (∀ v, getProp payload (s2l "roles") = some v → jsTruthy v = true →
      rolesOrEmpty payload = some v) ∧
    (payload ≠ JsonValue.null → getProp payload (s2l "roles") = none →
      rolesOrEmpty payload = some (JsonValue.arr [])) ∧
    (∀ v, getProp payload (s2l "roles") = some v → jsTruthy v = false →
      rolesOrEmpty payload = some (JsonValue.arr [])) := by
  refine ⟨?_, ?_, ?_, ?_, ?_⟩
  · rw [extract_of_three_segments decodePayload cookies token hseg pseg sseg hcookie hsplit,
      hdecode]
  · intro h
    subst h
    rfl
  · intro v hget htr
    cases payload <;> simp [getProp] at hget
    simp only [rolesOrEmpty, getProp, hget, htr, if_true]
  · intro hnull hget
    cases payload with
    | null => exact absurd rfl hnull
    | bool b => rfl
    | num n => rfl
    | str s => rfl
    | arr elems => rfl
    | obj fields =>
      simp only [getProp] at hget
      simp only [rolesOrEmpty, getProp, hget]
  · intro v hget hfalse
    cases payload <;> simp [getProp] at hget
    simp only [rolesOrEmpty, getProp, hget, hfalse, Bool.false_eq_true, if_false]

/-- C4 witness: the amended statement applied to a token whose payload has
a truthy roles array. -/
theorem c4_roles_of_parsed_token_witness :
    extractUserRolesFromToken
        (fun s => if s = s2l "b" then
          some (JsonValue.obj [(s2l "roles", JsonValue.arr [JsonValue.str (s2l "admin")])])
          else none)
        [(s2l "next-auth.session-token", s2l "a.b.c")]
      = rolesOrEmpty (JsonValue.obj [(s2l "roles", JsonValue.arr [JsonValue.str (s2l "admin")])]) :=
  (c4_roles_of_parsed_token
    (fun s => if s = s2l "b" then
      some (JsonValue.obj [(s2l "roles", JsonValue.arr [JsonValue.str (s2l "admin")])])
      else none)
    [(s2l "next-auth.session-token", s2l "a.b.c")]
    (s2l "a.b.c") (s2l "a") (s2l "b") (s2l "c")
    (JsonValue.obj [(s2l "roles", JsonValue.arr [JsonValue.str (s2l "admin")])])
    rfl rfl rfl).1

/-- C5: with multitenant enabled, host acme.example.com and the non-public
path /dashboard, the decision is a rewrite to /mp/acme/dashboard whatever
the rbac flag, the protected list, the decoder and the cookies are: the
rewrite is terminal and the rbac branch is never consulted. -/
theorem c5_tenant_rewrite (rbac : Bool) (prot : List Str)
    (decodePayload : Str → Option JsonValue) (cookies : List (Str × Str)) :
    middleware decodePayload
        ⟨rbac, true, PUBLIC_ROUTES, prot⟩
        ⟨s2l "/dashboard", s2l "acme.example.com", cookies⟩
      = MiddlewareDecision.rewrite (s2l "/mp/acme/dashboard") := rfl

/-- C6: with rbac enabled and multitenant disabled, a request to the
non-public path /dashboard whose cookies hold no session token is
redirected to /login, whatever the host, the decoder and the protected
list are. -/
theorem c6_no_session_redirect (decodePayload : Str → Option JsonValue)
    (prot : List Str) (host : Str) (cookies : List (Str × Str))
    (hnone : cookies.lookup (s2l "next-auth.session-token") = none) :
    middleware decodePayload ⟨true, false, PUBLIC_ROUTES, prot⟩
        ⟨s2l "/dashboard", host, cookies⟩
      = MiddlewareDecision.redirect (s2l "/login") := by
  unfold middleware extractUserRolesFromToken
  rw [hnone]
  rfl

/-- C6 witness: the redirect at an empty cookie set. -/
theorem c6_no_session_redirect_witness :
    middleware (fun _ => none) ⟨true, false, PUBLIC_ROUTES, []⟩
        ⟨s2l "/dashboard", s2l "example.com", []⟩
      = MiddlewareDecision.redirect (s2l "/login") :=
  c6_no_session_redirect (fun _ => none) [] (s2l "example.com") [] rfl

/-- C7: the middleware decision is total: for every decoder, configuration
and request it is one of the four variants, and a decode or parse failure
on the token's middle segment is downgraded to an absent role set instead
of an exception. -/
theorem c7_total_decision (decodePayload : Str → Option JsonValue)
    (cfg : RoutingConfig) (req : RequestDescriptor) :
    (middleware decodePayload cfg req = MiddlewareDecision.passThrough ∨
     (∃ p, middleware decodePayload cfg req = MiddlewareDecision.rewrite p) ∨
     (∃ l, middleware decodePayload cfg req = MiddlewareDecision.redirect l) ∨
     (∃ hs, middleware decodePayload cfg req = MiddlewareDecision.passThroughWithHeaders hs)) ∧
    (∀ token hseg pseg sseg,
      req.cookies.lookup (s2l "next-auth.session-token") = some token →
      splitOnChar '.' token = [hseg, pseg, sseg] →
      decodePayload pseg = none →
      extractUserRolesFromToken decodePayload req.cookies = none) := by
  constructor
  · cases h : middleware decodePayload cfg req with
    | passThrough => exact Or.inl rfl
    | rewrite p => exact Or.inr (Or.inl ⟨p, rfl⟩)
    | redirect l => exact Or.inr (Or.inr (Or.inl ⟨l, rfl⟩))
    | passThroughWithHeaders hs => exact Or.inr (Or.inr (Or.inr ⟨hs, rfl⟩))
  · intro token hseg pseg sseg hcookie hsplit hdecode
    rw [extract_of_three_segments decodePayload req.cookies token hseg pseg sseg hcookie hsplit,
      hdecode]

/-- C7 witness: the downgrade conjunct at a concrete failing decoder. -/
theorem c7_total_decision_witness :
    extractUserRolesFromToken (fun _ => none)
        [(s2l "next-auth.session-token", s2l "a.b.c")] = none :=
  (c7_total_decision (fun _ => none) ⟨true, false, PUBLIC_ROUTES, []⟩
      ⟨s2l "/dashboard", s2l "example.com", [(s2l "next-auth.session-token", s2l "a.b.c")]⟩).2
    (s2l "a.b.c") (s2l "a") (s2l "b") (s2l "c") rfl rfl rfl

/-- C9: with rbac and multitenant both enabled, every
pass-through-with-headers decision carries exactly the serialized-roles
header and never a tenant-id header: a truthy tenant would have terminated
with a rewrite before the rbac branch. -/
theorem c9_no_tenant_header (decodePayload : Str → Option JsonValue)
    (pub prot : List Str) (req : RequestDescriptor) (headers : List (Str × Str))
    (hrun : middleware decodePayload ⟨true, true, pub, prot⟩ req
      = MiddlewareDecision.passThroughWithHeaders headers) :
    (∃ r, headers = [(s2l "x-user-roles", r)]) ∧
    ∀ v, (s2l "x-tenant-id", v) ∉ headers := by
  by_cases hpub : isPublicRoute req.path pub = true
  · rw [show middleware decodePayload ⟨true, true, pub, prot⟩ req
        = MiddlewareDecision.passThrough from by simp [middleware, hpub]] at hrun
    cases hrun
  · by_cases htenant : jsTruthyStr (extractSubdomain req.hostHeader) = true
    · rw [show middleware decodePayload ⟨true, true, pub, prot⟩ req
          = MiddlewareDecision.rewrite
              (s2l "/mp/" ++ (extractSubdomain req.hostHeader).getD [] ++ req.path)
          from by simp [middleware, hpub, htenant]] at hrun
      cases hrun
    · cases hx : extractUserRolesFromToken decodePayload req.cookies with
      | none =>
        rw [show middleware decodePayload ⟨true, true, pub, prot⟩ req
            = MiddlewareDecision.redirect (s2l "/login")
            from by simp [middleware, hpub, htenant, hx]] at hrun
        cases hrun
      | some userRoles =>
        rw [show middleware decodePayload ⟨true, true, pub, prot⟩ req
            = MiddlewareDecision.passThroughWithHeaders
                [(s2l "x-user-roles", jsonStringify userRoles)]
            from by simp [middleware, hpub, htenant, hx]] at hrun
        injection hrun with hh
        subst hh
        refine ⟨⟨jsonStringify userRoles, rfl⟩, ?_⟩
        intro v hv
        simp only [List.mem_singleton, Prod.mk.injEq] at hv
        have : s2l "x-tenant-id" = s2l "x-user-roles" := hv.1
        exact absurd this (by decide)

/-- C9 witness: a concrete run reaching the headers branch. -/
theorem c9_no_tenant_header_witness :
    (∃ r, [(s2l "x-user-roles",
        jsonStringify (JsonValue.arr [JsonValue.str (s2l "admin")]))]
      = [(s2l "x-user-roles", r)]) ∧
    ∀ v, (s2l "x-tenant-id", v) ∉
      [(s2l "x-user-roles",
        jsonStringify (JsonValue.arr [JsonValue.str (s2l "admin")]))] :=
  c9_no_tenant_header
    (fun _ => some (JsonValue.obj [(s2l "roles", JsonValue.arr [JsonValue.str (s2l "admin")])]))
    PUBLIC_ROUTES []
    ⟨s2l "/dashboard", s2l "example.com", [(s2l "next-auth.session-token", s2l "a.b.c")]⟩
    [(s2l "x-user-roles", jsonStringify (JsonValue.arr [JsonValue.str (s2l "admin")]))]
    rfl

/-- C10: the decision never reads the protected list: two configurations
equal except for protectedRoutePrefixes produce the same decision on every
request, for every decoder. -/
theorem c10_protected_list_unread (decodePayload : Str → Option JsonValue)
    (c1 c2 : RoutingConfig) (req : RequestDescriptor)
    (hr : c1.rbacEnabled = c2.rbacEnabled)
    (hm : c1.multitenantEnabled = c2.multitenantEnabled)
    (hp : c1.publicRoutePrefixes = c2.publicRoutePrefixes) :
    middleware decodePayload c1 req = middleware decodePayload c2 req := by
  cases c1
  cases c2
  simp only at hr hm hp
  subst hr
  subst hm
  subst hp
  rfl

/-- C10 witness: the same decision under the full and the empty protected
list. -/
theorem c10_protected_list_unread_witness :
    middleware (fun _ => none) ⟨true, true, PUBLIC_ROUTES, PROTECTED_ROUTES true true⟩
        ⟨s2l "/dashboard", s2l "acme.example.com", []⟩
      = middleware (fun _ => none) ⟨true, true, PUBLIC_ROUTES, []⟩
        ⟨s2l "/dashboard", s2l "acme.example.com", []⟩ :=
  c10_protected_list_unread (fun _ => none)
    ⟨true, true, PUBLIC_ROUTES, PROTECTED_ROUTES true true⟩
    ⟨true, true, PUBLIC_ROUTES, []⟩
    ⟨s2l "/dashboard", s2l "acme.example.com", []⟩
    rfl rfl rfl
